import Mathlib

/-!
Verification development for the set-operation materialization sink
`Query_result_intersect` (src/sql/sql_intersect.h, src/sql/sql_intersect.cc).

The sink receives rows of a compound query expression, deposits them into a
backing temporary table while enforcing distinctness, transparently promotes
the table from the in-memory (heap) representation to an on-disk one on
capacity overflow, and counts the rows actually retained
(`m_rows_in_table`).

The storage collaborators (`ha_write_row`, `create_ondisk_from_heap`,
`check_unique_constraint`, `empty_result_table`, the deduplication choice
made inside `create_tmp_table`, and `fill_record`'s projection) are not part
of the repository sources; they are modelled from the specification's
contracts, each with a doc comment saying so.  The functions of
`Query_result_intersect` itself (`send_data`, `create_result_table`,
`reset`, `cleanup`, `row_count`, the constructor) are translated directly
from src/sql/sql_intersect.cc and src/sql/sql_intersect.h.
-/

/-- A materialized row: the list of visible column values (integers in all
concrete scenarios of the specification). -/
abbrev Row : Type := List Int

/-- The deduplication decision of spec §4.2, realized in the source through
the `Temp_table_param` flags `can_use_pk_for_unique` and
`force_hash_field_for_unique` passed to `create_tmp_table`. -/
inductive DedupDecision
  | NoDeduplication
  | NativeUniqueKey
  | HashPseudoKey
deriving DecidableEq

/-- Classification of a storage-layer write error
(`classifyError` in spec §6): the ignorable duplicate-key class, the
capacity-exceeded class that triggers promotion, or any other (fatal)
error. -/
inductive ErrClass
  | Ignorable
  | CapacityExceeded
  | Other
deriving DecidableEq

/-- Fault/capacity parameters of the storage layer (an external collaborator,
spec §6): the heap representation's row capacity, whether a requested
promotion fails, whether the on-disk representation also rejects writes
(so that capacity-exceeded is reported twice in a row), and whether the
empty-contents operation fails. -/
structure StorageModel where
  heapCapacity : Nat
  promoteFails : Bool
  diskFull : Bool
  emptyFails : Bool
deriving DecidableEq

/-- A storage layer with no injected faults: promotion succeeds, the on-disk
representation accepts writes, emptying succeeds; the heap representation
holds `cap` rows. -/
def goodStorage (cap : Nat) : StorageModel :=
  { heapCapacity := cap, promoteFails := false, diskFull := false,
    emptyFails := false }

/-- The state of the temporary table attached to the sink: its contents in
insertion order, the deduplication mechanism chosen at provisioning, the
current representation (heap or on-disk), whether the handler was configured
to ignore duplicate-key attempts (`HA_EXTRA_IGNORE_DUP_KEY`), and whether
the hash index is initialized (`ha_index_init`). -/
structure TableState where
  rows : List Row
  dedup : DedupDecision
  onDisk : Bool
  ignoreDup : Bool
  hashIndexInit : Bool
deriving DecidableEq

/-- `table->hash_field`: the hidden hash column exists exactly when the
hash-pseudo-key mechanism was chosen at provisioning. -/
def hash_field (t : TableState) : Bool :=
  decide (t.dedup = DedupDecision.HashPseudoKey)

/-- Modelled from the spec: `check_unique_constraint` (the hash-index lookup
of the executor, not under src/).  Spec §4.3 step 2: when a hash pseudo-key
is active and the projected row already exists per the hash lookup, report
`false` (duplicate); otherwise report `true`.  Tables without a hash field
always pass (native-key duplicates are caught by the engine at write time). -/
def check_unique_constraint (t : TableState) (r : Row) : Bool :=
  if hash_field t then decide (r ∉ t.rows) else true

/-- Modelled from the spec: the storage handler's `ha_write_row` (not under
src/), returning `none` on success and the classification of the error
otherwise.  A duplicate-key attempt against the native unique key is of the
ignorable class exactly when ignore-duplicates was configured at
provisioning (spec §4.1/§4.3); a heap-representation table at capacity
reports capacity-exceeded; a storage layer whose on-disk representation is
also full (`diskFull`) reports capacity-exceeded again after promotion.
On success the caller appends the row buffer to the table contents. -/
def ha_write_row (st : StorageModel) (t : TableState) (r : Row) :
    Option ErrClass :=
  if t.dedup = DedupDecision.NativeUniqueKey ∧ r ∈ t.rows then
    some (if t.ignoreDup then ErrClass.Ignorable else ErrClass.Other)
  else if t.onDisk = false ∧ st.heapCapacity ≤ t.rows.length then
    some ErrClass.CapacityExceeded
  else if t.onDisk = true ∧ st.diskFull = true then
    some ErrClass.CapacityExceeded
  else
    none

/-- `handler::is_ignorable_error`: only the ignorable (duplicate-key)
class is ignorable. -/
def is_ignorable_error (c : ErrClass) : Bool :=
  decide (c = ErrClass.Ignorable)

/-- Modelled from the spec: `create_ondisk_from_heap` (not under src/).
Spec §4.3: only a capacity-exceeded error triggers promotion ("will
generate error if needed" for the rest); promotion migrates the
representation to on-disk, preserving all previously inserted rows, after
which the hash index is no longer initialized ("Table's engine changed,
index is not initialized anymore"); the pending write is then retried
exactly once.  Result: `none` on failure (promotion failed, or the retried
write failed), otherwise the promoted table and the `is_duplicate` flag
(the retried write hit a duplicate-key rejection). -/
def create_ondisk_from_heap (st : StorageModel) (t : TableState)
    (err : ErrClass) (r : Row) : Option (TableState × Bool) :=
  if err ≠ ErrClass.CapacityExceeded then none
  else if st.promoteFails then none
  else
    let t1 : TableState := { t with onDisk := true, hashIndexInit := false }
    match ha_write_row st t1 r with
    | none => some ({ t1 with rows := t1.rows ++ [r] }, false)
    | some ErrClass.Ignorable => some (t1, true)
    | some _ => none

/-- `Query_result_intersect::send_data` (src/sql/sql_intersect.cc:111-134).
The incoming argument `v` is the result of `fill_record`'s projection of the
row's visible values into the table's row buffer: `none` models a failed
projection (the `fill_record(...)` early `return true`).  The result is the
C++ `bool` error flag together with the updated `m_rows_in_table` counter
and table state. -/
def send_data (st : StorageModel) (rc : Nat) (t : TableState)
    (v : Option Row) : Bool × Nat × TableState :=
  match v with
  | none => (true, rc, t)
  | some r =>
    if check_unique_constraint t r = false then (false, rc, t)
    else
      match ha_write_row st t r with
      | none => (false, rc + 1, { t with rows := t.rows ++ [r] })
      | some error =>
        if is_ignorable_error error = false then
          match create_ondisk_from_heap st t error r with
          | none => (true, rc, t)
          | some (t1, is_duplicate) =>
            let t2 := if hash_field t1 then
                { t1 with hashIndexInit := true } else t1
            (false, if is_duplicate then rc else rc + 1, t2)
        else (false, rc, t)

/-- The number of promotion attempts (`create_ondisk_from_heap` calls) that
`send_data` makes while processing one incoming row, read off the same
branch structure as `send_data`: one call in the non-ignorable-error branch,
none anywhere else. -/
def promotionsAttempted (st : StorageModel) (t : TableState)
    (v : Option Row) : Nat :=
  match v with
  | none => 0
  | some r =>
    if check_unique_constraint t r = false then 0
    else
      match ha_write_row st t r with
      | none => 0
      | some error => if is_ignorable_error error = false then 1 else 0

/-- The sink state of `Query_result_intersect`
(src/sql/sql_intersect.h:39-78): the count of rows successfully stored and
the attached temporary table (`nullptr` = `none`). -/
structure SinkState where
  m_rows_in_table : Nat
  table : Option TableState
deriving DecidableEq

/-- The `Query_result_intersect()` constructor
(src/sql/sql_intersect.h:48-49): `m_rows_in_table(0), table(nullptr)`. -/
def initSink : SinkState := { m_rows_in_table := 0, table := none }

/-- `Query_result_intersect::row_count` (src/sql/sql_intersect.h:77). -/
def row_count (s : SinkState) : Nat := s.m_rows_in_table

/-- Modelled from the spec: `TABLE::empty_result_table` (not under src/).
Spec §4.4: empties the physical store's contents, not its schema or
uniqueness mechanism; fails exactly when the storage layer's
empty-operation fails. -/
def empty_result_table (st : StorageModel) (t : TableState) :
    Option TableState :=
  if st.emptyFails then none else some { t with rows := [] }

/-- `Query_result_intersect::reset` (src/sql/sql_intersect.cc:217-220):
`m_rows_in_table = 0; return table ? table->empty_result_table() : false;`. -/
def reset (st : StorageModel) (s : SinkState) : Bool × SinkState :=
  let s0 : SinkState := { s with m_rows_in_table := 0 }
  match s0.table with
  | none => (false, s0)
  | some t =>
    match empty_result_table st t with
    | none => (true, s0)
    | some t1 => (false, { s0 with table := some t1 })

/-- `Query_result_intersect::cleanup` (src/sql/sql_intersect.h:69):
`void cleanup(THD *) { (void)reset(); }` — the error flag of `reset` is
discarded; only the state effect remains. -/
def cleanup (st : StorageModel) (s : SinkState) : SinkState :=
  (reset st s).2

/-- Modelled from the spec: the deduplication decision made inside
`create_tmp_table` (not under src/) from `is_distinct` and the
`Temp_table_param` flags.  Spec §4.2: no distinctness means no
deduplication; a forced hash field or an unusable unique key means the
hash pseudo-key; otherwise the storage-native unique key. -/
def tmp_table_dedup (is_distinct can_use_pk_for_unique
    force_hash_field_for_unique : Bool) : DedupDecision :=
  if is_distinct = false then DedupDecision.NoDeduplication
  else if force_hash_field_for_unique = true ∨ can_use_pk_for_unique = false
    then DedupDecision.HashPseudoKey
  else DedupDecision.NativeUniqueKey

/-- The flag settings of `Query_result_intersect::create_result_table`
(src/sql/sql_intersect.cc:177-201): a recursive query expression clears
`can_use_pk_for_unique`; mixed DISTINCT/ALL operators set
`force_hash_field_for_unique`; both default the other way. -/
def create_result_table_decision (is_intersect_distinct queryIsRecursive
    mixedAllAndDistinctBranches : Bool) : DedupDecision :=
  tmp_table_dedup is_intersect_distinct (!queryIsRecursive)
    mixedAllAndDistinctBranches

/-- The spec §4.2 selector, written from the specification's words, for
comparison with the source-derived `create_result_table_decision`. -/
def spec_select (distinctnessRequired queryIsRecursive
    mixedAllAndDistinctBranches : Bool) : DedupDecision :=
  if distinctnessRequired = false then DedupDecision.NoDeduplication
  else if queryIsRecursive = true ∨ mixedAllAndDistinctBranches = true then
    DedupDecision.HashPseudoKey
  else DedupDecision.NativeUniqueKey

/-- Result of provisioning: the `assert(table == nullptr)` at
src/sql/sql_intersect.cc:171 firing, `create_tmp_table` failing
(`return true`), or success with the updated sink state. -/
inductive ProvisionResult
  | assertViolation
  | failure
  | success (s : SinkState)
deriving DecidableEq

/-- `Query_result_intersect::create_result_table`
(src/sql/sql_intersect.cc:162-208).  `allocFails` models `create_tmp_table`
returning null (storage allocation failure; that function is not under
src/).  On success with `create_table` set, the handler is configured to
ignore duplicate keys (`HA_EXTRA_IGNORE_DUP_KEY`) and, when a hash field
exists, the hash index is initialized (`ha_index_init`). -/
def create_result_table (s : SinkState) (is_intersect_distinct
    queryIsRecursive mixedAllAndDistinctBranches create_table
    allocFails : Bool) : ProvisionResult :=
  if s.table ≠ none then ProvisionResult.assertViolation
  else if allocFails then ProvisionResult.failure
  else
    let dedup := create_result_table_decision is_intersect_distinct
      queryIsRecursive mixedAllAndDistinctBranches
    let t : TableState :=
      { rows := [], dedup := dedup, onDisk := false,
        ignoreDup := create_table,
        hashIndexInit :=
          create_table && decide (dedup = DedupDecision.HashPseudoKey) }
    ProvisionResult.success { s with table := some t }

/-- The spec's per-row `Outcome`, read off `send_data`'s observables: the
error flag and whether `m_rows_in_table` was incremented. -/
inductive Outcome
  | Inserted
  | DuplicateRejected
  | Failure
deriving DecidableEq

/-- Classify one `send_data` call from its error flag and the counter before
and after. -/
def outcomeOf (err : Bool) (rcBefore rcAfter : Nat) : Outcome :=
  if err then Outcome.Failure
  else if rcBefore < rcAfter then Outcome.Inserted
  else Outcome.DuplicateRejected

/-- Feed a sequence of projected rows to `send_data`, collecting the
per-row outcomes and the final counter and table state. -/
def insertMany (st : StorageModel) (rc : Nat) (t : TableState) :
    List (Option Row) → List Outcome × Nat × TableState
  | [] => ([], rc, t)
  | v :: vs =>
    match send_data st rc t v with
    | (b, rc1, t1) =>
      match insertMany st rc1 t1 vs with
      | (os, rc2, t2) => (outcomeOf b rc rc1 :: os, rc2, t2)

/-- A freshly provisioned table with deduplication mechanism `d`, physical
table allocated (duplicate-key attempts ignored, hash index initialized
when a hash field exists). -/
def freshTable (d : DedupDecision) : TableState :=
  { rows := [], dedup := d, onDisk := false, ignoreDup := true,
    hashIndexInit := decide (d = DedupDecision.HashPseudoKey) }

/-- A storage layer whose on-disk representation also rejects writes, so a
capacity-exceeded error is reported again on the retry after promotion. -/
def diskFullStorage (cap : Nat) : StorageModel :=
  { heapCapacity := cap, promoteFails := false, diskFull := true,
    emptyFails := false }

/-- A storage layer whose promotion to the on-disk representation fails. -/
def promoteFailStorage (cap : Nat) : StorageModel :=
  { heapCapacity := cap, promoteFails := true, diskFull := false,
    emptyFails := false }

/-- An example natively-deduplicating table already holding the row `(1,2)`,
used to instantiate theorems with hypotheses at a concrete input. -/
def exampleNativeTable : TableState :=
  { rows := [[1, 2]], dedup := DedupDecision.NativeUniqueKey, onDisk := false,
    ignoreDup := true, hashIndexInit := false }

/-- A sink to which a native-key table is already attached, as left by a
successful provisioning. -/
def exampleProvisionedSink : SinkState :=
  { m_rows_in_table := 0,
    table := some (freshTable DedupDecision.NativeUniqueKey) }

/-- A duplicate insert against the native unique key with ignore-duplicates
configured is silently rejected: no error, no counter change, no state
change. -/
lemma send_data_dup_native (st : StorageModel) (rc : Nat) (t : TableState)
    (r : Row) (h1 : t.dedup = DedupDecision.NativeUniqueKey)
    (h2 : t.ignoreDup = true) (h3 : r ∈ t.rows) :
    send_data st rc t (some r) = (false, rc, t) := by
  simp [send_data, check_unique_constraint, hash_field, h1, ha_write_row, h2,
    h3, is_ignorable_error]

/-- Inserting a fresh row into a natively-deduplicating table under a
fault-free storage layer succeeds, appending the row and incrementing the
counter; only the representation flag may change (via promotion when the
heap is full). -/
lemma send_data_new_native (cap rc : Nat) (t : TableState) (r : Row)
    (h1 : t.dedup = DedupDecision.NativeUniqueKey)
    (h5 : t.hashIndexInit = false) (h3 : r ∉ t.rows) :
    ∃ d : Bool, send_data (goodStorage cap) rc t (some r) =
      (false, rc + 1, { t with rows := t.rows ++ [r], onDisk := d }) := by
  by_cases hfull : t.onDisk = false ∧ cap ≤ t.rows.length
  · refine ⟨true, ?_⟩
    simp [send_data, check_unique_constraint, hash_field, h1, ha_write_row,
      h3, hfull, is_ignorable_error, create_ondisk_from_heap, goodStorage, h5]
  · refine ⟨t.onDisk, ?_⟩
    simp [send_data, check_unique_constraint, hash_field, h1, ha_write_row,
      h3, hfull, is_ignorable_error, goodStorage]

/-- Repeating a row already present in a natively-deduplicating table any
number of times leaves counter and state unchanged and reports
`DuplicateRejected` each time. -/
lemma insertMany_dup_native (st : StorageModel) (n rc : Nat)
    (t : TableState) (r : Row)
    (h1 : t.dedup = DedupDecision.NativeUniqueKey)
    (h2 : t.ignoreDup = true) (h3 : r ∈ t.rows) :
    insertMany st rc t (List.replicate n (some r)) =
      (List.replicate n Outcome.DuplicateRejected, rc, t) := by
  induction n with
  | zero => simp [insertMany]
  | succ k ih =>
    rw [List.replicate_succ]
    simp [insertMany, send_data_dup_native st rc t r h1 h2 h3, outcomeOf, ih,
      List.replicate_succ]

/-- Claim C1: for a materialization provisioned with
`distinctnessRequired = true`, `queryIsRecursive = false` and
`mixedAllAndDistinctBranches = false` (native unique key), inserting the
same logical row N times (N ≥ 1) yields RowCount 1, the first attempt
reporting `Inserted` and attempts 2..N reporting `DuplicateRejected`;
concretely, provisioning with those flags attaches a fresh native-key
table, and inserting `(1,2)`, `(1,2)`, `(3,4)` yields outcomes
`[Inserted, DuplicateRejected, Inserted]` with a row count of 2. -/
theorem native_dedup_rowcount :
    (∀ (cap N : Nat) (r : Row), 1 ≤ N →
      (insertMany (goodStorage cap)
          (row_count initSink) (freshTable DedupDecision.NativeUniqueKey)
          (List.replicate N (some r))).1 =
        Outcome.Inserted ::
          List.replicate (N - 1) Outcome.DuplicateRejected ∧
      (insertMany (goodStorage cap)
          (row_count initSink) (freshTable DedupDecision.NativeUniqueKey)
          (List.replicate N (some r))).2.1 = 1) ∧
    create_result_table initSink true false false true false =
      ProvisionResult.success
        { m_rows_in_table := 0,
          table := some (freshTable DedupDecision.NativeUniqueKey) } ∧
    (insertMany (goodStorage 10) 0 (freshTable DedupDecision.NativeUniqueKey)
        [some [1, 2], some [1, 2], some [3, 4]]).1 =
      [Outcome.Inserted, Outcome.DuplicateRejected, Outcome.Inserted] ∧
    (insertMany (goodStorage 10) 0 (freshTable DedupDecision.NativeUniqueKey)
        [some [1, 2], some [1, 2], some [3, 4]]).2.1 = 2 := by
  refine ⟨?_, by decide, by decide, by decide⟩
  intro cap N r hN
  obtain ⟨k, rfl⟩ : ∃ k, N = k + 1 :=
    ⟨N - 1, (Nat.succ_pred_eq_of_pos hN).symm⟩
  obtain ⟨d, hd⟩ := send_data_new_native cap 0
    (freshTable DedupDecision.NativeUniqueKey) r rfl (by decide)
    (by simp [freshTable])
  have hmain : insertMany (goodStorage cap) 0
      (freshTable DedupDecision.NativeUniqueKey)
      (List.replicate (k + 1) (some r)) =
      (Outcome.Inserted :: List.replicate k Outcome.DuplicateRejected, 1,
       { freshTable DedupDecision.NativeUniqueKey with
         rows := [r], onDisk := d }) := by
    rw [List.replicate_succ]
    simp only [insertMany, hd]
    rw [show ({ freshTable DedupDecision.NativeUniqueKey with
        rows := (freshTable DedupDecision.NativeUniqueKey).rows ++ [r],
        onDisk := d } : TableState) =
      { freshTable DedupDecision.NativeUniqueKey with
        rows := [r], onDisk := d } by simp [freshTable]]
    rw [insertMany_dup_native (goodStorage cap) k 1 _ r (by simp [freshTable])
      (by simp [freshTable]) (by simp)]
    simp [outcomeOf]
  simp [row_count, initSink, hmain, Nat.add_sub_cancel]

/-- Claim C2: the deduplication strategy selection is a pure function of the
three booleans: the source-derived decision (recursive clears
`can_use_pk_for_unique`, mixed forces the hash field) agrees with the spec
§4.2 table on every combination. -/
theorem strategy_selection_pure :
    ∀ distinctnessRequired queryIsRecursive
      mixedAllAndDistinctBranches : Bool,
      create_result_table_decision distinctnessRequired queryIsRecursive
          mixedAllAndDistinctBranches =
        spec_select distinctnessRequired queryIsRecursive
          mixedAllAndDistinctBranches := by
  decide

/-- Claim C8: when projection of the incoming row into the store's row
buffer fails, `send_data` reports failure, the counter and the table state
are untouched (so neither a uniqueness check nor a physical write happened),
and no promotion is attempted. -/
theorem projection_failure_aborts_row :
    ∀ (st : StorageModel) (rc : Nat) (t : TableState),
      send_data st rc t none = (true, rc, t) ∧
      promotionsAttempted st t none = 0 := by
  intro st rc t
  exact ⟨rfl, rfl⟩

/-- Claim C9: `reset` on a sink whose table was never allocated
(`table == nullptr`, as in the freshly constructed sink) succeeds — no
error is reported — and leaves the row count at zero. -/
theorem reset_null_table :
    ∀ (st : StorageModel) (rc : Nat),
      reset st { m_rows_in_table := rc, table := none } =
        (false, { m_rows_in_table := 0, table := none }) ∧
      row_count (reset st { m_rows_in_table := rc, table := none }).2 = 0 ∧
      initSink.table = none := by
  intro st rc
  exact ⟨rfl, rfl, rfl⟩

/-- Claim C3: a physical write failing with an error of the ignorable
(duplicate-key) class is treated exactly like a `DuplicateRejected`
outcome: `send_data` reports success, the counter and the table state are
unchanged; and provisioning with a physical table always configures the
handler to ignore duplicate keys. -/
theorem ignorable_write_error_rejected :
    (∀ (st : StorageModel) (rc : Nat) (t : TableState) (r : Row),
      check_unique_constraint t r = true →
      ha_write_row st t r = some ErrClass.Ignorable →
      send_data st rc t (some r) = (false, rc, t) ∧
      outcomeOf (send_data st rc t (some r)).1 rc
          (send_data st rc t (some r)).2.1 = Outcome.DuplicateRejected) ∧
    (∀ (a b c e : Bool) (s : SinkState), s.table = none →
      ∀ s', create_result_table s a b c true e = ProvisionResult.success s' →
        ∃ tbl, s'.table = some tbl ∧ tbl.ignoreDup = true) := by
  constructor
  · intro st rc t r hchk hw
    have h : send_data st rc t (some r) = (false, rc, t) := by
      simp [send_data, hchk, hw, is_ignorable_error]
    rw [h]
    exact ⟨rfl, by simp [outcomeOf]⟩
  · intro a b c e s ht s' hsucc
    cases e with
    | true => simp [create_result_table, ht] at hsucc
    | false =>
      simp [create_result_table, ht] at hsucc
      exact ⟨_, by rw [← hsucc], rfl⟩

/-- Claim C4: a capacity-exceeded write triggers exactly one promotion and
one retry of the pending write; if the promoted store still rejects the
write (capacity reported twice in a row), or the promotion itself fails,
`send_data` reports a fatal failure with the state unchanged — and for
every storage layer and incoming row, at most one promotion is ever
attempted per insert. -/
theorem capacity_retry_bound :
    ∀ (cap rc : Nat) (t : TableState) (r : Row),
      t.onDisk = false → cap ≤ t.rows.length → r ∉ t.rows →
      (send_data (diskFullStorage cap) rc t (some r) = (true, rc, t) ∧
        promotionsAttempted (diskFullStorage cap) t (some r) = 1) ∧
      (send_data (promoteFailStorage cap) rc t (some r) = (true, rc, t) ∧
        promotionsAttempted (promoteFailStorage cap) t (some r) = 1) ∧
      (∀ (st : StorageModel) (v : Option Row),
        promotionsAttempted st t v ≤ 1) := by
  intro cap rc t r hheap hfull hnew
  have hchk : check_unique_constraint t r = true := by
    simp [check_unique_constraint, hnew]
  refine ⟨⟨?_, ?_⟩, ⟨?_, ?_⟩, ?_⟩
  · simp [send_data, hchk, ha_write_row, hnew, hheap, hfull,
      is_ignorable_error, create_ondisk_from_heap, diskFullStorage]
  · simp [promotionsAttempted, hchk, ha_write_row, hnew, hheap, hfull,
      is_ignorable_error, diskFullStorage]
  · simp [send_data, hchk, ha_write_row, hnew, hheap, hfull,
      is_ignorable_error, create_ondisk_from_heap, promoteFailStorage]
  · simp [promotionsAttempted, hchk, ha_write_row, hnew, hheap, hfull,
      is_ignorable_error, promoteFailStorage]
  · intro st v
    cases v with
    | none => simp [promotionsAttempted]
    | some r2 =>
      simp only [promotionsAttempted]
      split
      · exact Nat.zero_le 1
      · split
        · exact Nat.zero_le 1
        · split <;> simp

/-- Claim C5: a promotion triggered by a capacity-exceeded write preserves
the store's content — the result holds all previously inserted rows
followed by the triggering row, the counter is incremented for the
triggering row, the schema fields are unchanged — and a hash-based
uniqueness index is re-initialized against the promoted representation;
concretely, inserting three distinct rows into a hash-deduplicating table
whose heap holds two rows yields three `Inserted` outcomes, row count 3,
and a promoted table still holding all three rows with its hash index
initialized. -/
theorem promotion_preserves_content :
    ∀ (cap rc : Nat) (t : TableState) (r : Row),
      t.onDisk = false → cap ≤ t.rows.length → r ∉ t.rows →
      (send_data (goodStorage cap) rc t (some r) =
        (false, rc + 1,
         { rows := t.rows ++ [r], dedup := t.dedup, onDisk := true,
           ignoreDup := t.ignoreDup, hashIndexInit := hash_field t })) ∧
      insertMany (goodStorage 2) 0 (freshTable DedupDecision.HashPseudoKey)
          [some [1], some [2], some [3]] =
        ([Outcome.Inserted, Outcome.Inserted, Outcome.Inserted], 3,
         { rows := [[1], [2], [3]], dedup := DedupDecision.HashPseudoKey,
           onDisk := true, ignoreDup := true, hashIndexInit := true }) := by
  intro cap rc t r hheap hfull hnew
  refine ⟨?_, by decide⟩
  have hchk : check_unique_constraint t r = true := by
    simp [check_unique_constraint, hnew]
  by_cases hh : t.dedup = DedupDecision.HashPseudoKey <;>
    simp [send_data, hchk, ha_write_row, hnew, hheap, hfull,
      is_ignorable_error, create_ondisk_from_heap, goodStorage,
      hash_field, hh]

/-- Claim C6: `reset` zeroes the row count and empties the store's contents
while leaving schema and uniqueness mechanism intact; it fails exactly when
the storage layer's empty-operation fails on an attached table; it is
idempotent under a working storage layer; and episodes are isolated: after
`reset`, inserting a new row and then a duplicate of it yields a row count
of 1 regardless of the prior episode's count. -/
theorem reset_semantics :
    (∀ (st : StorageModel) (s : SinkState), st.emptyFails = false →
      reset st s =
        (false, { m_rows_in_table := 0,
                  table := s.table.map fun t => { t with rows := [] } })) ∧
    (∀ (st : StorageModel) (s : SinkState),
      (reset st s).1 = (s.table.isSome && st.emptyFails)) ∧
    (∀ (st : StorageModel) (s : SinkState), st.emptyFails = false →
      reset st (reset st s).2 = reset st s) ∧
    (∀ (cap rc0 : Nat) (t0 : TableState) (r : Row),
      t0.dedup = DedupDecision.NativeUniqueKey → t0.ignoreDup = true →
      t0.hashIndexInit = false →
      (reset (goodStorage cap)
          { m_rows_in_table := rc0, table := some t0 }).2 =
        { m_rows_in_table := 0, table := some { t0 with rows := [] } } ∧
      (insertMany (goodStorage cap) 0 { t0 with rows := [] }
          [some r, some r]).2.1 = 1) := by
  have ha : ∀ (st : StorageModel) (s : SinkState), st.emptyFails = false →
      reset st s =
        (false, { m_rows_in_table := 0,
                  table := s.table.map fun t => { t with rows := [] } }) := by
    intro st s h
    rcases s with ⟨rc, tb⟩
    cases tb <;> simp [reset, empty_result_table, h]
  refine ⟨ha, ?_, ?_, ?_⟩
  · intro st s
    rcases s with ⟨rc, tb⟩
    cases tb <;> cases hE : st.emptyFails <;>
      simp [reset, empty_result_table, hE]
  · intro st s h
    rw [ha st s h, ha st _ h]
    rcases s with ⟨rc, tb⟩
    cases tb <;> simp
  · intro cap rc0 t0 r h1 h2 h5
    constructor
    · rw [ha (goodStorage cap) _ rfl]
      simp
    · obtain ⟨d, hd⟩ := send_data_new_native cap 0 { t0 with rows := [] } r
        (by simpa using h1) (by simpa using h5) (by simp)
      have hdup := send_data_dup_native (goodStorage cap) 1
        ({ t0 with rows := [] ++ [r], onDisk := d }) r (by simpa using h1)
        (by simpa using h2) (by simp)
      simp only [insertMany, hd, hdup]

/-- Claim C7: `cleanup` invokes `reset` and discards the failure flag: for
every storage layer and sink state it returns exactly `reset`'s state
effect, surfaces no error value at all, and leaves the row count at zero
even when the underlying empty-operation failed. -/
theorem cleanup_discards_reset_failure :
    ∀ (st : StorageModel) (s : SinkState),
      cleanup st s = (reset st s).2 ∧ row_count (cleanup st s) = 0 := by
  intro st s
  refine ⟨rfl, ?_⟩
  rcases s with ⟨rc, tb⟩
  cases tb <;> cases hE : st.emptyFails <;>
    simp [cleanup, reset, empty_result_table, row_count, hE]

/-- Claim C10: provisioning asserts that no table is attached:
the freshly constructed sink satisfies `table == nullptr`; on any sink with
no attached table `create_result_table` never fires the assertion; on any
sink with an attached table it does; and a successful provisioning leaves a
table attached, so provisioning a second time without clearing the table
fires the assertion. -/
theorem provision_assert_table_null :
    initSink.table = none ∧
    (∀ (a b c d e : Bool) (s : SinkState), s.table = none →
      create_result_table s a b c d e ≠ ProvisionResult.assertViolation) ∧
    (∀ (a b c d e : Bool) (s : SinkState) (t : TableState),
      s.table = some t →
      create_result_table s a b c d e = ProvisionResult.assertViolation) ∧
    (∀ (a b c d e : Bool) (s s' : SinkState),
      create_result_table s a b c d e = ProvisionResult.success s' →
      s'.table ≠ none) := by
  refine ⟨rfl, ?_, ?_, ?_⟩
  · intro a b c d e s ht
    cases e <;> simp [create_result_table, ht]
  · intro a b c d e s t ht
    simp [create_result_table, ht]
  · intro a b c d e s s' hsucc
    by_cases ht : s.table = none
    · cases e with
      | true => simp [create_result_table, ht] at hsucc
      | false =>
        simp [create_result_table, ht] at hsucc
        rw [← hsucc]
        simp
    · simp [create_result_table, ht] at hsucc

/-- Witness for `native_dedup_rowcount` at a concrete input: three inserts
of the row `(7,8)` with heap capacity 4 retain exactly one row. -/
theorem native_dedup_rowcount_witness :
    1 ≤ 3 ∧
    (insertMany (goodStorage 4) (row_count initSink)
        (freshTable DedupDecision.NativeUniqueKey)
        (List.replicate 3 (some ([7, 8] : Row)))).2.1 = 1 :=
  ⟨by decide, (native_dedup_rowcount.1 4 3 [7, 8] (by decide)).2⟩

/-- Witness for `ignorable_write_error_rejected` at a concrete input: a
duplicate of `(1,2)` against a native-key table holding it. -/
theorem ignorable_write_error_rejected_witness :
    check_unique_constraint exampleNativeTable [1, 2] = true ∧
    ha_write_row (goodStorage 5) exampleNativeTable [1, 2] =
      some ErrClass.Ignorable ∧
    send_data (goodStorage 5) 3 exampleNativeTable (some [1, 2]) =
      (false, 3, exampleNativeTable) :=
  ⟨by decide, by decide,
    (ignorable_write_error_rejected.1 (goodStorage 5) 3 exampleNativeTable
      [1, 2] (by decide) (by decide)).1⟩

/-- Witness for `capacity_retry_bound` at a concrete input: heap capacity 1,
one row stored, the on-disk representation also full. -/
theorem capacity_retry_bound_witness :
    exampleNativeTable.onDisk = false ∧
    1 ≤ exampleNativeTable.rows.length ∧
    ([9, 9] : Row) ∉ exampleNativeTable.rows ∧
    send_data (diskFullStorage 1) 1 exampleNativeTable (some [9, 9]) =
      (true, 1, exampleNativeTable) :=
  ⟨rfl, by decide, by decide,
    ((capacity_retry_bound 1 1 exampleNativeTable [9, 9] rfl (by decide)
      (by decide)).1).1⟩

/-- Witness for `promotion_preserves_content` at a concrete input: inserting
`(9,9)` into a full heap table holding `(1,2)` promotes and keeps both
rows. -/
theorem promotion_preserves_content_witness :
    send_data (goodStorage 1) 1 exampleNativeTable (some [9, 9]) =
      (false, 1 + 1,
       { rows := [[1, 2], [9, 9]], dedup := DedupDecision.NativeUniqueKey,
         onDisk := true, ignoreDup := true,
         hashIndexInit := hash_field exampleNativeTable }) :=
  (promotion_preserves_content 1 1 exampleNativeTable [9, 9] rfl (by decide)
    (by decide)).1

/-- Witness for `reset_semantics` at a concrete input: a prior episode with
row count 7 is reset; inserting a fresh `[1]` and then its duplicate yields
row count 1. -/
theorem reset_semantics_witness :
    reset (goodStorage 5)
        { m_rows_in_table := 7, table := some exampleNativeTable } =
      (false, { m_rows_in_table := 0,
                table := Option.map (fun t => { t with rows := [] })
                  (some exampleNativeTable) }) ∧
    (insertMany (goodStorage 5) 0 { exampleNativeTable with rows := [] }
        [some [1], some [1]]).2.1 = 1 :=
  ⟨reset_semantics.1 (goodStorage 5) _ rfl,
    (reset_semantics.2.2.2 5 7 exampleNativeTable [1] rfl rfl rfl).2⟩

/-- Witness for `provision_assert_table_null` at concrete inputs: the fresh
sink provisions without firing the assertion; a sink with an attached table
fires it. -/
theorem provision_assert_table_null_witness :
    create_result_table initSink true false false true false ≠
      ProvisionResult.assertViolation ∧
    create_result_table exampleProvisionedSink true false false true false =
      ProvisionResult.assertViolation :=
  ⟨provision_assert_table_null.2.1 true false false true false initSink rfl,
   provision_assert_table_null.2.2.1 true false false true false
     exampleProvisionedSink (freshTable DedupDecision.NativeUniqueKey) rfl⟩
